import Mathlib

/-!
Shallow embedding of `src/stellar-api/examples/python/api_client.py`
(the `StellarAPIClient._request` retry pipeline, token handling, logout,
and the `CircuitBreaker` class), with theorems settling the claims about
the specification of this client.

Conventions of the embedding:
* timestamps and durations are `Int` seconds (`datetime.now()` is passed in
  as an explicit `now` argument);
* the HTTP transport is a function `Nat → AttemptResult` giving, for each
  0-based attempt index, either a classified response
  (status, optional parsed `retry-after` header, decoded JSON body as an
  abstract `String`) or a transport-level exception
  (`requests.exceptions.RequestException`);
* the nested `_request('POST', '/auth/refresh', ...)` round trip performed
  by `refresh_access_token` is abstracted by an oracle
  `Option (String × Option Nat)`: `some (newTok, expiresIn)` is a successful
  refresh response body `{tokens: {accessToken: newTok, expiresIn}}`, `none`
  is any failure of that nested call (the raised exception propagates).  The
  one state effect of the nested call that is kept is that, at its entry, it
  rewrites the session `Authorization` header from the access token held at
  that moment (line 38-39 of the source, executed by the nested call).
* Python truthiness of an optional string field (`if self.access_token:`)
  is `truthy`: present and non-empty.
-/

namespace StellarFlow

/-- State of the `CircuitBreaker` string field: `'closed'`, `'open'`,
`'half-open'`. -/
inductive CBState where
  | closed
  | opened
  | halfOpen
deriving DecidableEq, Repr

/-- Embedding of the `CircuitBreaker` class fields (`__init__`). -/
structure CircuitBreaker where
  failure_threshold : Nat := 5
  recovery_timeout : Int := 60
  failure_count : Nat := 0
  last_failure_time : Option Int := none
  state : CBState := CBState.closed
deriving DecidableEq, Repr

/-- Mutable fields of `StellarAPIClient` relevant to the pipeline:
`access_token`, `refresh_token`, `token_expiry`, and the session's
`Authorization` header (`self.session.headers['Authorization']`). -/
structure ClientState where
  access_token : Option String
  refresh_token : Option String
  token_expiry : Option Int
  authHeader : Option String
deriving DecidableEq, Repr

/-- Classified result of one `self.session.request(...)` round trip:
either a response (status code, parsed `retry-after` header if present,
decoded JSON body) or a raised `requests.exceptions.RequestException`. -/
inductive AttemptResult where
  | resp (status : Nat) (retryAfter : Option Nat) (body : String)
  | transportError
deriving DecidableEq, Repr

/-- Errors raised by the client (`APIError` and its messages). -/
inductive ApiError where
  | retriesExhausted (attempts : Nat)
  | noRefreshToken
  | refreshRequestFailed
  | circuitOpen
deriving DecidableEq, Repr

/-- Result of one `_request` invocation: a decoded JSON body (`return
response.json()`), a raised error, or Python's implicit `return None`
reached when the `for attempt in range(max_retries)` loop is exhausted
without returning or raising. -/
inductive ReqResult where
  | body (b : String)
  | error (e : ApiError)
  | nothing
deriving DecidableEq, Repr

/-- Observable effects of one `_request` invocation: the `time.sleep`
durations in order, the number of `refresh_access_token` invocations, and
the `Authorization` header value at each transport send. -/
structure RunTrace where
  sleeps : List Nat
  refreshes : Nat
  headersUsed : List (Option String)
deriving DecidableEq, Repr

/-- Python truthiness of an optional string field: present and non-empty. -/
def truthy : Option String → Bool
  | none => false
  | some s => s != ""

/-- Lines 38-39: `if self.access_token: self.session.headers['Authorization']
= f'Bearer {self.access_token}'`. -/
def setAuthHeader (st : ClientState) : ClientState :=
  match st.access_token with
  | some t => if t = "" then st else { st with authHeader := some ("Bearer " ++ t) }
  | none => st

/-- Line 42: `self.token_expiry and datetime.now() >= self.token_expiry -
timedelta(minutes=5)`. -/
def needsProactiveRefresh (now : Int) (st : ClientState) : Bool :=
  match st.token_expiry with
  | some e => decide (e - 300 ≤ now)
  | none => false

/-- Embedding of `refresh_access_token` (lines 129-142).  Raises
`APIError("No refresh token available")` when `self.refresh_token` is not
truthy; otherwise performs the nested `_request('POST', '/auth/refresh')`
(abstracted by `rNet`, except for its entry effect of rewriting the
`Authorization` header from the current access token), then on success
stores `tokens.accessToken` and `token_expiry = now + tokens.get('expiresIn',
3600)`.  `refresh_token` itself is not modified. -/
def refresh_access_token (now : Int) (rNet : Option (String × Option Nat))
    (st : ClientState) : ClientState × Except ApiError String :=
  if truthy st.refresh_token = true then
    let st1 := setAuthHeader st
    match rNet with
    | some (newTok, expiresIn) =>
      ({ st1 with
          access_token := some newTok
          token_expiry := some (now + (expiresIn.getD 3600 : Int)) },
        Except.ok newTok)
    | none => (st1, Except.error ApiError.refreshRequestFailed)
  else
    (st, Except.error ApiError.noRefreshToken)

/-- Embedding of the body of `for attempt in range(max_retries)` (lines
46-75), by recursion on the number of remaining loop iterations (`fuel`);
`attempt` is the current value of the loop variable.  Each iteration sends
one request (recording the `Authorization` header in force), then:
status 429 → `time.sleep(retry-after or 60)` and `continue`; status 401
with a truthy refresh token on attempt 0 → `refresh_access_token()` and
`continue` (an `APIError` raised by the refresh is not a
`RequestException`, so it propagates); status ≥ 400 →
`response.raise_for_status()` raises and is caught: on the last attempt
raise `APIError`, otherwise `time.sleep(2 ** attempt)` and retry; a
transport exception is handled the same way; otherwise `return
response.json()`.  When `fuel` runs out the Python loop falls through and
the function implicitly returns `None`. -/
def requestLoopAux (maxRetries : Nat) (now : Int)
    (rNet : Option (String × Option Nat)) (transport : Nat → AttemptResult) :
    Nat → Nat → ClientState → ClientState × ReqResult × RunTrace
  | 0, _, st => (st, ReqResult.nothing, ⟨[], 0, []⟩)
  | fuel + 1, attempt, st =>
    match transport attempt with
    | AttemptResult.resp status retryAfter b =>
      if status = 429 then
        let wait := retryAfter.getD 60
        let out := requestLoopAux maxRetries now rNet transport fuel (attempt + 1) st
        (out.1, out.2.1,
          ⟨wait :: out.2.2.sleeps, out.2.2.refreshes, st.authHeader :: out.2.2.headersUsed⟩)
      else if status = 401 ∧ truthy st.refresh_token = true ∧ attempt = 0 then
        match refresh_access_token now rNet st with
        | (st1, Except.error e) => (st1, ReqResult.error e, ⟨[], 1, [st.authHeader]⟩)
        | (st1, Except.ok _) =>
          let out := requestLoopAux maxRetries now rNet transport fuel (attempt + 1) st1
          (out.1, out.2.1,
            ⟨out.2.2.sleeps, out.2.2.refreshes + 1, st.authHeader :: out.2.2.headersUsed⟩)
      else if 400 ≤ status then
        if attempt = maxRetries - 1 then
          (st, ReqResult.error (ApiError.retriesExhausted maxRetries),
            ⟨[], 0, [st.authHeader]⟩)
        else
          let out := requestLoopAux maxRetries now rNet transport fuel (attempt + 1) st
          (out.1, out.2.1,
            ⟨2 ^ attempt :: out.2.2.sleeps, out.2.2.refreshes, st.authHeader :: out.2.2.headersUsed⟩)
      else
        (st, ReqResult.body b, ⟨[], 0, [st.authHeader]⟩)
    | AttemptResult.transportError =>
      if attempt = maxRetries - 1 then
        (st, ReqResult.error (ApiError.retriesExhausted maxRetries),
          ⟨[], 0, [st.authHeader]⟩)
      else
        let out := requestLoopAux maxRetries now rNet transport fuel (attempt + 1) st
        (out.1, out.2.1,
          ⟨2 ^ attempt :: out.2.2.sleeps, out.2.2.refreshes, st.authHeader :: out.2.2.headersUsed⟩)

/-- Line 45: `max_retries = 3`. -/
def max_retries : Nat := 3

/-- Embedding of `_request` (lines 33-75): set the `Authorization` header
from the current access token, run the proactive-refresh check (a raised
refresh error propagates and aborts the call before any attempt), then run
the attempt loop with `attempt = 0` and `max_retries` iterations.  `pNet`
is the refresh oracle for the proactive refresh, `rNet` the one for the
reactive (401-triggered) refresh. -/
def stellarRequest (now : Int) (pNet rNet : Option (String × Option Nat))
    (transport : Nat → AttemptResult) (st : ClientState) :
    ClientState × ReqResult × RunTrace :=
  let st1 := setAuthHeader st
  if needsProactiveRefresh now st1 = true then
    match refresh_access_token now pNet st1 with
    | (st2, Except.error e) => (st2, ReqResult.error e, ⟨[], 1, []⟩)
    | (st2, Except.ok _) =>
      let out := requestLoopAux max_retries now rNet transport max_retries 0 st2
      (out.1, out.2.1, ⟨out.2.2.sleeps, out.2.2.refreshes + 1, out.2.2.headersUsed⟩)
  else
    requestLoopAux max_retries now rNet transport max_retries 0 st1

/-- Embedding of `clear_tokens` (lines 86-91): all token fields set to
`None` and the `Authorization` header popped. -/
def clear_tokens (st : ClientState) : ClientState :=
  { st with
      access_token := none
      refresh_token := none
      token_expiry := none
      authHeader := none }

/-- Modelled from the spec: `TokenState.isAuthenticated()` ("true iff
`accessToken` is set"); the source client has no such method, only the
`access_token` attribute it would read. -/
def isAuthenticated (st : ClientState) : Bool :=
  st.access_token.isSome

/-- Embedding of `logout` (lines 118-127): `try: response = self._request(
'POST', '/auth/logout', ...)` with `finally: self.clear_tokens()`; the
clear runs whether the request returns or raises. -/
def logout (now : Int) (pNet rNet : Option (String × Option Nat))
    (transport : Nat → AttemptResult) (st : ClientState) :
    ClientState × ReqResult :=
  let out := stellarRequest now pNet rNet transport st
  (clear_tokens out.1, out.2.1)

/-- Embedding of `delete_account` (lines 190-197): same `try`/`finally`
shape as `logout`, around `_request('DELETE', '/users/delete', ...)`. -/
def delete_account (now : Int) (pNet rNet : Option (String × Option Nat))
    (transport : Nat → AttemptResult) (st : ClientState) :
    ClientState × ReqResult :=
  let out := stellarRequest now pNet rNet transport st
  (clear_tokens out.1, out.2.1)

/-- Admission part of `CircuitBreaker.call` (lines 263-267): when
`'open'`, move to `'half-open'` if `now - last_failure_time >
recovery_timeout`, else reject (`raise APIError("Circuit breaker is
open")`).  The source initializes `last_failure_time = None` and only
reads it while `'open'`, where it is always set; `getD 0` fills the
unreachable `None` read. -/
def CircuitBreaker.admission (cb : CircuitBreaker) (now : Int) :
    CircuitBreaker × Bool :=
  match cb.state with
  | CBState.opened =>
    if cb.recovery_timeout < now - cb.last_failure_time.getD 0 then
      ({ cb with state := CBState.halfOpen }, true)
    else
      (cb, false)
  | _ => (cb, true)

/-- Success part of `CircuitBreaker.call` (lines 271-273): only when
`'half-open'`, move to `'closed'` and reset `failure_count`. -/
def CircuitBreaker.recordSuccess (cb : CircuitBreaker) : CircuitBreaker :=
  if cb.state = CBState.halfOpen then
    { cb with state := CBState.closed, failure_count := 0 }
  else
    cb

/-- Failure part of `CircuitBreaker.call` (lines 276-281): increment
`failure_count`, stamp `last_failure_time`, and move to `'open'` when the
incremented count reaches `failure_threshold`. -/
def CircuitBreaker.recordFailure (cb : CircuitBreaker) (now : Int) :
    CircuitBreaker :=
  let cb1 := { cb with
      failure_count := cb.failure_count + 1
      last_failure_time := some now }
  if cb.failure_threshold ≤ cb1.failure_count then
    { cb1 with state := CBState.opened }
  else
    cb1

/-- Embedding of `CircuitBreaker.call` (lines 262-283): admission gate,
then run `func` (its outcome is passed in), recording success or failure;
a failure re-raises the original exception. -/
def CircuitBreaker.call (cb : CircuitBreaker) (now : Int)
    (func : Except ApiError String) : CircuitBreaker × Except ApiError String :=
  let gate := cb.admission now
  if gate.2 then
    match func with
    | Except.ok v => (gate.1.recordSuccess, Except.ok v)
    | Except.error e => (gate.1.recordFailure now, Except.error e)
  else
    (gate.1, Except.error ApiError.circuitOpen)

/-- Iterated `recordFailure` at a fixed failure time. -/
def failN (now : Int) : Nat → CircuitBreaker → CircuitBreaker
  | 0, cb => cb
  | k + 1, cb => (failN now k cb).recordFailure now

/-- Attempt results the spec classifies as `TransportFailure` or
`OtherHttpError`: a transport exception, or a response with status ≥ 400
other than 429 and 401. -/
def isPlainFailure : AttemptResult → Bool
  | AttemptResult.resp status _ _ =>
    decide (400 ≤ status) && status != 429 && status != 401
  | AttemptResult.transportError => true

/-- Attempt result that takes the reactive-refresh branch at attempt 0 for
a given client state: a 401 response while the refresh token is truthy. -/
def reactiveTrigger (st : ClientState) : AttemptResult → Bool
  | AttemptResult.resp status _ _ => decide (status = 401) && truthy st.refresh_token
  | AttemptResult.transportError => false

/-- Backoff schedule produced by a run of consecutive retried failures
starting at a given attempt number: `2 ^ attempt` seconds per retry. -/
def backoffSleeps (attempt : Nat) : Nat → List Nat
  | 0 => []
  | f + 1 => 2 ^ attempt :: backoffSleeps (attempt + 1) f

lemma setAuthHeader_access_token (st : ClientState) :
    (setAuthHeader st).access_token = st.access_token := by
  cases st with
  | mk a r e h =>
    cases a with
    | none => rfl
    | some t => by_cases ht : t = "" <;> simp [setAuthHeader, ht]

lemma setAuthHeader_refresh_token (st : ClientState) :
    (setAuthHeader st).refresh_token = st.refresh_token := by
  cases st with
  | mk a r e h =>
    cases a with
    | none => rfl
    | some t => by_cases ht : t = "" <;> simp [setAuthHeader, ht]

lemma setAuthHeader_token_expiry (st : ClientState) :
    (setAuthHeader st).token_expiry = st.token_expiry := by
  cases st with
  | mk a r e h =>
    cases a with
    | none => rfl
    | some t => by_cases ht : t = "" <;> simp [setAuthHeader, ht]

/-- Once the loop variable has advanced past 0, no iteration can take the
reactive-refresh branch, so the client state is never mutated and no
refresh is issued for the rest of the loop. -/
lemma requestLoopAux_tail (maxR : Nat) (now : Int)
    (rNet : Option (String × Option Nat)) (transport : Nat → AttemptResult) :
    ∀ fuel attempt st, 1 ≤ attempt →
      (requestLoopAux maxR now rNet transport fuel attempt st).1 = st ∧
      (requestLoopAux maxR now rNet transport fuel attempt st).2.2.refreshes = 0 := by
  intro fuel
  induction fuel with
  | zero => intro attempt st _; exact ⟨rfl, rfl⟩
  | succ f ih =>
    intro attempt st h
    cases htr : transport attempt with
    | transportError =>
      simp only [requestLoopAux, htr]
      by_cases hl : attempt = maxR - 1
      · simp [hl]
      · simp only [if_neg hl]
        exact ⟨(ih (attempt + 1) st (by omega)).1, (ih (attempt + 1) st (by omega)).2⟩
    | resp status ra b =>
      simp only [requestLoopAux, htr]
      have h0 : ¬ (status = 401 ∧ truthy st.refresh_token = true ∧ attempt = 0) := by
        rintro ⟨-, -, h0⟩; omega
      by_cases h429 : status = 429
      · simp only [if_pos h429]
        exact ⟨(ih (attempt + 1) st (by omega)).1, (ih (attempt + 1) st (by omega)).2⟩
      · simp only [if_neg h429, if_neg h0]
        by_cases h400 : 400 ≤ status
        · simp only [if_pos h400]
          by_cases hl : attempt = maxR - 1
          · simp [hl]
          · simp only [if_neg hl]
            exact ⟨(ih (attempt + 1) st (by omega)).1, (ih (attempt + 1) st (by omega)).2⟩
        · simp only [if_neg h400]
          simp

/-- Every loop entry with fuel left performs a send, recording the
`Authorization` header held at that moment as the head of the header
trace. -/
lemma requestLoop_sends (maxR : Nat) (now : Int)
    (rNet : Option (String × Option Nat)) (transport : Nat → AttemptResult)
    (fuel attempt : Nat) (st : ClientState) :
    ∃ rest,
      (requestLoopAux maxR now rNet transport (fuel + 1) attempt st).2.2.headersUsed
        = st.authHeader :: rest := by
  rw [requestLoopAux]
  cases htr : transport attempt with
  | transportError =>
    simp only [htr]
    by_cases hl : attempt = maxR - 1
    · rw [if_pos hl]
      exact ⟨[], rfl⟩
    · rw [if_neg hl]
      exact ⟨_, rfl⟩
  | resp status ra b =>
    simp only [htr]
    by_cases h429 : status = 429
    · rw [if_pos h429]
      exact ⟨_, rfl⟩
    · rw [if_neg h429]
      by_cases h401 : status = 401 ∧ truthy st.refresh_token = true ∧ attempt = 0
      · rw [if_pos h401]
        rcases refresh_access_token now rNet st with ⟨st1, r⟩
        cases r
        · exact ⟨_, rfl⟩
        · exact ⟨_, rfl⟩
      · rw [if_neg h401]
        by_cases h400 : 400 ≤ status
        · rw [if_pos h400]
          by_cases hl : attempt = maxR - 1
          · rw [if_pos hl]
            exact ⟨[], rfl⟩
          · rw [if_neg hl]
            exact ⟨_, rfl⟩
        · rw [if_neg h400]
          exact ⟨_, rfl⟩

/-- Closed form of the loop when every attempt is a retried failure: the
final attempt raises `APIError` reporting `maxRetries` attempts, the
sleeps follow the exponential backoff schedule, and one send per remaining
iteration is performed with an unchanged client state. -/
lemma requestLoop_all_fail (maxR : Nat) (now : Int)
    (rNet : Option (String × Option Nat)) (transport : Nat → AttemptResult) :
    ∀ fuel attempt st, 1 ≤ fuel → fuel + attempt = maxR →
      (∀ i, i < maxR → isPlainFailure (transport i) = true) →
      requestLoopAux maxR now rNet transport fuel attempt st =
        (st, ReqResult.error (ApiError.retriesExhausted maxR),
          ⟨backoffSleeps attempt (fuel - 1), 0, List.replicate fuel st.authHeader⟩) := by
  intro fuel
  induction fuel with
  | zero => intro attempt st h _ _; omega
  | succ f ih =>
    intro attempt st _ hsum hfail
    have hi : isPlainFailure (transport attempt) = true := hfail attempt (by omega)
    rw [requestLoopAux]
    by_cases hlast : attempt = maxR - 1
    · have hf0 : f = 0 := by omega
      subst hf0
      cases htr : transport attempt with
      | transportError =>
        simp only [htr]
        rw [if_pos hlast]
        simp [backoffSleeps, List.replicate]
      | resp status ra b =>
        rw [htr] at hi
        simp only [isPlainFailure, Bool.and_eq_true, decide_eq_true_eq,
          bne_iff_ne] at hi
        obtain ⟨⟨h400, h429⟩, h401⟩ := hi
        simp only [htr]
        rw [if_neg h429,
          if_neg (fun hc => h401 hc.1 :
            ¬ (status = 401 ∧ truthy st.refresh_token = true ∧ attempt = 0)),
          if_pos h400, if_pos hlast]
        simp [backoffSleeps, List.replicate]
    · have hf1 : 1 ≤ f := by omega
      obtain ⟨k, rfl⟩ : ∃ k, f = k + 1 := ⟨f - 1, by omega⟩
      cases htr : transport attempt with
      | transportError =>
        simp only [htr]
        rw [if_neg hlast]
        rw [ih (attempt + 1) st hf1 (by omega) hfail]
        simp [backoffSleeps, List.replicate]
      | resp status ra b =>
        rw [htr] at hi
        simp only [isPlainFailure, Bool.and_eq_true, decide_eq_true_eq,
          bne_iff_ne] at hi
        obtain ⟨⟨h400, h429⟩, h401⟩ := hi
        simp only [htr]
        rw [if_neg h429,
          if_neg (fun hc => h401 hc.1 :
            ¬ (status = 401 ∧ truthy st.refresh_token = true ∧ attempt = 0)),
          if_pos h400, if_neg hlast]
        rw [ih (attempt + 1) st hf1 (by omega) hfail]
        simp [backoffSleeps, List.replicate]

/-- Field-level description of one `recordFailure` step. -/
lemma recordFailure_fields (cb : CircuitBreaker) (now : Int) :
    (cb.recordFailure now).failure_count = cb.failure_count + 1 ∧
    (cb.recordFailure now).failure_threshold = cb.failure_threshold ∧
    (cb.recordFailure now).recovery_timeout = cb.recovery_timeout ∧
    (cb.recordFailure now).last_failure_time = some now ∧
    (cb.recordFailure now).state =
      (if cb.failure_threshold ≤ cb.failure_count + 1 then CBState.opened
       else cb.state) := by
  unfold CircuitBreaker.recordFailure
  by_cases h : cb.failure_threshold ≤ cb.failure_count + 1 <;> simp [h]

/-- Closed form of `k ≤ failureThreshold` consecutive failures recorded on
a closed breaker with zero failure count: the count tracks `k`, the config
fields are unchanged, and the state flips to open exactly at the
threshold. -/
lemma failN_spec (cb : CircuitBreaker) (now : Int)
    (hs : cb.state = CBState.closed) (hc : cb.failure_count = 0) :
    ∀ k, k ≤ cb.failure_threshold →
      (failN now k cb).failure_count = k ∧
      (failN now k cb).failure_threshold = cb.failure_threshold ∧
      (failN now k cb).recovery_timeout = cb.recovery_timeout ∧
      (failN now k cb).state =
        (if k = cb.failure_threshold ∧ 0 < k then CBState.opened
         else CBState.closed) ∧
      (0 < k → (failN now k cb).last_failure_time = some now) := by
  intro k
  induction k with
  | zero =>
    intro _
    refine ⟨hc, rfl, rfl, ?_, by omega⟩
    rw [if_neg (by rintro ⟨-, h2⟩; omega)]
    exact hs
  | succ n ih =>
    intro hk
    obtain ⟨ic, ith, irt, ist, il⟩ := ih (by omega)
    have hstate : (failN now n cb).state = CBState.closed := by
      rw [ist, if_neg]
      rintro ⟨h1, -⟩
      omega
    obtain ⟨f1, f2, f3, f4, f5⟩ := recordFailure_fields (failN now n cb) now
    have e : failN now (n + 1) cb = (failN now n cb).recordFailure now := rfl
    rw [e]
    refine ⟨by rw [f1, ic], by rw [f2, ith], by rw [f3, irt], ?_, fun _ => f4⟩
    rw [f5, hstate, ith, ic]
    by_cases hT : n + 1 = cb.failure_threshold
    · rw [if_pos (by omega), if_pos ⟨hT, by omega⟩]
    · rw [if_neg (by omega), if_neg (by rintro ⟨h1, -⟩; exact hT h1)]

/-- C2 counterexample state: a half-open breaker whose consecutive-failure
count is far below the threshold. -/
def c2Breaker : CircuitBreaker :=
  ⟨5, 60, 0, some 0, CBState.halfOpen⟩

/-- C2, counterexample: with `failureThreshold = 5`, a breaker in HalfOpen
with `consecutiveFailures = 0` that records a failure (via `call` on a
failing function) stays in HalfOpen — it does not transition to Open, so
the transition is not unconditional. -/
theorem c2_halfopen_failure_cex :
    ((c2Breaker.call 10 (Except.error (ApiError.retriesExhausted 3))).1.state
        = CBState.halfOpen) ∧
    ((c2Breaker.call 10 (Except.error (ApiError.retriesExhausted 3))).1.state
        ≠ CBState.opened) := by
  decide

/-- C2, amended: whenever the circuit breaker is in HalfOpen state and a
failure is recorded, it transitions to Open exactly when the incremented
consecutive-failure count reaches `failureThreshold`; below the threshold
it remains HalfOpen. -/
theorem c2_halfopen_failure_amended (cb : CircuitBreaker) (now : Int)
    (h : cb.state = CBState.halfOpen) :
    (cb.recordFailure now).state =
      (if cb.failure_threshold ≤ cb.failure_count + 1 then CBState.opened
       else CBState.halfOpen) := by
  unfold CircuitBreaker.recordFailure
  by_cases hth : cb.failure_threshold ≤ cb.failure_count + 1
  · simp [hth]
  · simp [hth, h]

/-- C2 witness state: half-open, one prior failure, threshold 5. -/
def c2WitBreaker : CircuitBreaker :=
  ⟨5, 60, 1, some 0, CBState.halfOpen⟩

/-- C2, witness for the amended theorem at a concrete half-open breaker. -/
theorem c2_halfopen_failure_amended_witness :
    c2WitBreaker.state = CBState.halfOpen ∧
    (c2WitBreaker.recordFailure 7).state =
      (if c2WitBreaker.failure_threshold ≤ c2WitBreaker.failure_count + 1
       then CBState.opened else CBState.halfOpen) :=
  ⟨rfl, c2_halfopen_failure_amended c2WitBreaker 7 rfl⟩

/-- C5 counterexample state: a closed breaker with two accumulated
failures. -/
def c5Breaker : CircuitBreaker :=
  ⟨5, 60, 2, some 0, CBState.closed⟩

/-- C5, counterexample: a success recorded while the breaker is Closed
(via `call` on a succeeding function) leaves `consecutiveFailures = 2`; it
does not reset the count to 0, so non-consecutive failures can accumulate
toward the threshold. -/
theorem c5_success_keeps_failures_cex :
    ((c5Breaker.call 10 (Except.ok "body")).1.failure_count = 2) ∧
    ((c5Breaker.call 10 (Except.ok "body")).1.failure_count ≠ 0) := by
  decide

/-- C5, amended: `recordSuccess` transitions to Closed and resets the
consecutive-failure count only when the breaker is HalfOpen; in any other
state (in particular Closed) it leaves the breaker entirely unchanged. -/
theorem c5_record_success_amended (cb : CircuitBreaker) :
    (cb.state = CBState.halfOpen →
      cb.recordSuccess = { cb with state := CBState.closed, failure_count := 0 }) ∧
    (cb.state ≠ CBState.halfOpen → cb.recordSuccess = cb) := by
  constructor <;> intro h <;> simp [CircuitBreaker.recordSuccess, h]

/-- C5, witness for the amended theorem: the closed breaker with two
failures is untouched by `recordSuccess`. -/
theorem c5_record_success_amended_witness :
    c5Breaker.state ≠ CBState.halfOpen ∧ c5Breaker.recordSuccess = c5Breaker :=
  ⟨by decide, (c5_record_success_amended c5Breaker).2 (by decide)⟩

/-- C6: circuit-breaker admission.  (i) In Open state, when `now -
openedAt ≤ recoveryTimeout` (`openedAt` is `last_failure_time`), `admit`
rejects without touching the breaker; (ii) in Open state with the timeout
elapsed, `admit` transitions to HalfOpen and allows; (iii) from a closed
breaker with zero count and positive threshold, the state stays Closed for
fewer than `failureThreshold` consecutive failures, is Open after exactly
`failureThreshold` of them, and the next admission within the recovery
timeout rejects. -/
theorem c6_breaker_admission (cb : CircuitBreaker) (t0 tA now : Int) :
    (cb.state = CBState.opened → cb.last_failure_time = some t0 →
      tA - t0 ≤ cb.recovery_timeout → cb.admission tA = (cb, false)) ∧
    (cb.state = CBState.opened → cb.last_failure_time = some t0 →
      cb.recovery_timeout < tA - t0 →
      cb.admission tA = ({ cb with state := CBState.halfOpen }, true)) ∧
    (cb.state = CBState.closed → cb.failure_count = 0 → 0 < cb.failure_threshold →
      (∀ k, k < cb.failure_threshold → (failN now k cb).state = CBState.closed) ∧
      (failN now cb.failure_threshold cb).state = CBState.opened ∧
      (tA - now ≤ cb.recovery_timeout →
        ((failN now cb.failure_threshold cb).admission tA).2 = false)) := by
  refine ⟨?_, ?_, ?_⟩
  · intro hs hl hle
    simp only [CircuitBreaker.admission, hs, hl, Option.getD_some]
    rw [if_neg (by omega)]
  · intro hs hl hlt
    simp only [CircuitBreaker.admission, hs, hl, Option.getD_some]
    rw [if_pos (by omega)]
  · intro hs hc hT
    refine ⟨?_, ?_, ?_⟩
    · intro k hk
      obtain ⟨-, -, -, ist, -⟩ := failN_spec cb now hs hc k (by omega)
      rw [ist, if_neg (by rintro ⟨h1, -⟩; omega)]
    · obtain ⟨-, -, -, ist, -⟩ := failN_spec cb now hs hc cb.failure_threshold le_rfl
      rw [ist, if_pos ⟨rfl, hT⟩]
    · intro hle
      obtain ⟨-, -, irt, ist, il⟩ := failN_spec cb now hs hc cb.failure_threshold le_rfl
      rw [if_pos ⟨rfl, hT⟩] at ist
      simp only [CircuitBreaker.admission, ist, il hT, irt, Option.getD_some]
      rw [if_neg (by omega)]

/-- C6 witness breaker in the Open state (`openedAt = 0`). -/
def cbOpenW : CircuitBreaker :=
  ⟨5, 60, 5, some 0, CBState.opened⟩

/-- C6 witness breaker in the Closed state with threshold 2. -/
def cbClosedW : CircuitBreaker :=
  ⟨2, 60, 0, none, CBState.closed⟩

/-- C6, witness: admission rejected at 50s and allowed (via HalfOpen) at
200s past `openedAt = 0` with a 60s recovery timeout; two consecutive
failures open the threshold-2 breaker. -/
theorem c6_breaker_admission_witness :
    cbOpenW.admission 50 = (cbOpenW, false) ∧
    cbOpenW.admission 200 = ({ cbOpenW with state := CBState.halfOpen }, true) ∧
    (failN 0 2 cbClosedW).state = CBState.opened := by
  refine ⟨?_, ?_, ?_⟩
  · exact (c6_breaker_admission cbOpenW 0 50 0).1 rfl rfl (by decide)
  · exact (c6_breaker_admission cbOpenW 0 200 0).2.1 rfl rfl (by decide)
  · exact ((c6_breaker_admission cbClosedW 0 0 0).2.2 rfl rfl (by decide)).2.1

/-- Client state right after a successful reactive refresh inside the
loop: the nested refresh call has rewritten the `Authorization` header
from the pre-refresh access token, then the new access token and expiry
were stored — without touching the header again. -/
def refreshedState (now : Int) (newTok : String) (expIn : Option Nat)
    (st : ClientState) : ClientState :=
  { setAuthHeader st with
      access_token := some newTok
      token_expiry := some (now + (expIn.getD 3600 : Int)) }

/-- One-step unfolding of the loop at attempt 0 on a 401 response with a
truthy refresh token and a succeeding refresh oracle: the refresh runs,
and the loop continues at attempt 1 from the refreshed state, counting one
refresh and one send (with the pre-refresh header). -/
lemma requestLoop_trigger_step (maxR : Nat) (now : Int) (newTok : String)
    (expIn : Option Nat) (transport : Nat → AttemptResult) (st : ClientState)
    (fuel : Nat) (ra : Option Nat) (b : String)
    (hrt : truthy st.refresh_token = true)
    (h0 : transport 0 = AttemptResult.resp 401 ra b) :
    requestLoopAux maxR now (some (newTok, expIn)) transport (fuel + 1) 0 st =
      ((requestLoopAux maxR now (some (newTok, expIn)) transport fuel 1
          (refreshedState now newTok expIn st)).1,
       (requestLoopAux maxR now (some (newTok, expIn)) transport fuel 1
          (refreshedState now newTok expIn st)).2.1,
       ⟨(requestLoopAux maxR now (some (newTok, expIn)) transport fuel 1
          (refreshedState now newTok expIn st)).2.2.sleeps,
        (requestLoopAux maxR now (some (newTok, expIn)) transport fuel 1
          (refreshedState now newTok expIn st)).2.2.refreshes + 1,
        st.authHeader :: (requestLoopAux maxR now (some (newTok, expIn)) transport fuel 1
          (refreshedState now newTok expIn st)).2.2.headersUsed⟩) := by
  have hro : refresh_access_token now (some (newTok, expIn)) st =
      (refreshedState now newTok expIn st, Except.ok newTok) := by
    simp [refresh_access_token, refreshedState, hrt]
  rw [requestLoopAux]
  simp only [h0]
  rw [if_neg (by decide : ¬ ((401 : Nat) = 429)),
    if_pos (⟨trivial, hrt, trivial⟩ :
      True ∧ truthy st.refresh_token = true ∧ True), hro]

/-- When the first attempt's outcome does not take the reactive-refresh
branch, a loop started at attempt 0 never refreshes. -/
lemma requestLoop_no_trigger (maxR : Nat) (now : Int)
    (rNet : Option (String × Option Nat)) (transport2 : Nat → AttemptResult)
    (st2 : ClientState) (fuel : Nat)
    (hno : reactiveTrigger st2 (transport2 0) = false) :
    (requestLoopAux maxR now rNet transport2 (fuel + 1) 0 st2).2.2.refreshes = 0 := by
  rw [requestLoopAux]
  cases htr : transport2 0 with
  | transportError =>
    simp only [htr]
    by_cases hl : (0 : Nat) = maxR - 1
    · rw [if_pos hl]
    · rw [if_neg hl]
      exact (requestLoopAux_tail maxR now rNet transport2 fuel 1 st2 (by omega)).2
  | resp status ra b =>
    rw [htr] at hno
    have hnot : ¬ (status = 401 ∧ truthy st2.refresh_token = true ∧ True) := by
      rintro ⟨h1, h2, -⟩
      simp [reactiveTrigger, h1, h2] at hno
    simp only [htr]
    by_cases h429 : status = 429
    · rw [if_pos h429]
      exact (requestLoopAux_tail maxR now rNet transport2 fuel 1 st2 (by omega)).2
    · rw [if_neg h429, if_neg hnot]
      by_cases h400 : 400 ≤ status
      · rw [if_pos h400]
        by_cases hl : (0 : Nat) = maxR - 1
        · rw [if_pos hl]
        · rw [if_neg hl]
          exact (requestLoopAux_tail maxR now rNet transport2 fuel 1 st2 (by omega)).2
      · rw [if_neg h400]

/-- Client state with no tokens stored. -/
def stEmptyW : ClientState := ⟨none, none, none, none⟩

/-- C1: three consecutive HTTP 429 responses (`retry-after: 7`).  The code
sleeps 7 seconds and `continue`s each time, but `continue` advances the
`for` loop variable, so each 429 consumes an attempt slot: three sends are
performed (one per slot) and the loop is then exhausted, so `_request`
implicitly returns `None` instead of looping until a non-429 outcome. -/
theorem c1_rate_limited_consumes_slots :
    ((stellarRequest 0 none none (fun _ => AttemptResult.resp 429 (some 7) "throttled")
        stEmptyW).2.1 = ReqResult.nothing) ∧
    ((stellarRequest 0 none none (fun _ => AttemptResult.resp 429 (some 7) "throttled")
        stEmptyW).2.2.sleeps = [7, 7, 7]) ∧
    ((stellarRequest 0 none none (fun _ => AttemptResult.resp 429 (some 7) "throttled")
        stEmptyW).2.2.headersUsed.length = 3) := by
  decide

/-- C3: an execution that returns neither a body nor an error.  Three
consecutive 429 responses without a `retry-after` header make the loop
sleep 60 seconds per iteration and then fall off the end of
`for attempt in range(max_retries)`, so `_request` returns `None` — the
outcome is not two-valued. -/
theorem c3_request_can_return_nothing :
    ((stellarRequest 0 none none (fun _ => AttemptResult.resp 429 none "slow down")
        stEmptyW).2.1 = ReqResult.nothing) ∧
    ((stellarRequest 0 none none (fun _ => AttemptResult.resp 429 none "slow down")
        stEmptyW).2.2.sleeps = [60, 60, 60]) := by
  decide

/-- C4 counterexample state: an access token whose expiry is within the
5-minute lead window at `now = 100`, and no refresh token. -/
def c4State : ClientState := ⟨some "tok", none, some 100, none⟩

/-- C4, counterexample: the proactive-refresh check fires with no refresh
token available; `refresh_access_token` raises
`APIError("No refresh token available")`, which propagates out of
`_request` — the attempt loop never runs (no send is performed), so the
refresh failure does abort the logical call. -/
theorem c4_refresh_failure_aborts_cex :
    ((stellarRequest 100 none none (fun _ => AttemptResult.resp 200 none "okbody")
        c4State).2.1 = ReqResult.error ApiError.noRefreshToken) ∧
    ((stellarRequest 100 none none (fun _ => AttemptResult.resp 200 none "okbody")
        c4State).2.2.headersUsed = []) := by
  decide

/-- C4, amended: when the proactive-refresh check fires and the refresh
fails (for any reason, including a missing refresh token), the raised
error aborts the logical call: it propagates as the call's outcome and the
original request is never attempted. -/
theorem c4_refresh_failure_aborts (now : Int)
    (pNet rNet : Option (String × Option Nat)) (transport : Nat → AttemptResult)
    (st : ClientState) (e : ApiError)
    (hfire : needsProactiveRefresh now (setAuthHeader st) = true)
    (hfail : (refresh_access_token now pNet (setAuthHeader st)).2 = Except.error e) :
    ((stellarRequest now pNet rNet transport st).2.1 = ReqResult.error e) ∧
    ((stellarRequest now pNet rNet transport st).2.2.headersUsed = []) := by
  simp only [stellarRequest]
  rw [if_pos hfire]
  rcases hR : refresh_access_token now pNet (setAuthHeader st) with ⟨st2, r2⟩
  rw [hR] at hfail
  have h2 : r2 = Except.error e := hfail
  subst h2
  exact ⟨rfl, rfl⟩

/-- C4, witness for the amended theorem: the counterexample state, with a
transport that would fail anyway; the call aborts with the refresh error
and performs no send. -/
theorem c4_refresh_failure_aborts_witness :
    (needsProactiveRefresh 100 (setAuthHeader c4State) = true) ∧
    ((stellarRequest 100 none none (fun _ => AttemptResult.transportError)
        c4State).2.1 = ReqResult.error ApiError.noRefreshToken) ∧
    ((stellarRequest 100 none none (fun _ => AttemptResult.transportError)
        c4State).2.2.headersUsed = []) := by
  refine ⟨by decide, ?_, ?_⟩
  · exact (c4_refresh_failure_aborts 100 none none _ c4State ApiError.noRefreshToken
      (by decide) rfl).1
  · exact (c4_refresh_failure_aborts 100 none none _ c4State ApiError.noRefreshToken
      (by decide) rfl).2

/-- C7: when the proactive check does not fire and every attempt is a
`TransportFailure` or `OtherHttpError`, the call sleeps `2 ^ 0 = 1` and
`2 ^ 1 = 2` seconds between the three attempts and then fails with
`APIError` reporting `max_retries = 3` attempts. -/
theorem c7_backoff_schedule (now : Int) (pNet rNet : Option (String × Option Nat))
    (transport : Nat → AttemptResult) (st : ClientState)
    (hp : needsProactiveRefresh now (setAuthHeader st) = false)
    (hf : ∀ i, i < max_retries → isPlainFailure (transport i) = true) :
    ((stellarRequest now pNet rNet transport st).2.1
      = ReqResult.error (ApiError.retriesExhausted max_retries)) ∧
    ((stellarRequest now pNet rNet transport st).2.2.sleeps = [2 ^ 0, 2 ^ 1]) := by
  have hloop := requestLoop_all_fail max_retries now rNet transport max_retries 0
    (setAuthHeader st) (by decide) (by decide) hf
  simp only [stellarRequest]
  rw [if_neg (by simp [hp] : ¬ (needsProactiveRefresh now (setAuthHeader st) = true))]
  rw [hloop]
  exact ⟨rfl, rfl⟩

/-- C7, witness: a transport that always raises, on a fresh client. -/
theorem c7_backoff_schedule_witness :
    ((stellarRequest 0 none none (fun _ => AttemptResult.transportError) stEmptyW).2.1
      = ReqResult.error (ApiError.retriesExhausted max_retries)) ∧
    ((stellarRequest 0 none none (fun _ => AttemptResult.transportError)
        stEmptyW).2.2.sleeps = [2 ^ 0, 2 ^ 1]) :=
  c7_backoff_schedule 0 none none (fun _ => AttemptResult.transportError) stEmptyW
    (by decide) (fun _ _ => rfl)

/-- C8: with the proactive check not firing, a truthy refresh token, a 401
on attempt 0, and a succeeding refresh, exactly one refresh is issued for
the whole logical call (whatever the later attempts return) and the
original request is sent again (at least two sends occur); moreover, for
any transport whose attempt-0 outcome does not take the reactive-refresh
branch — in particular when its 401s occur only on attempts ≥ 1 — the loop
performs no refresh at all. -/
theorem c8_single_refresh (now : Int) (pNet : Option (String × Option Nat))
    (newTok : String) (expIn : Option Nat) (transport : Nat → AttemptResult)
    (st : ClientState) (ra : Option Nat) (b : String)
    (hp : needsProactiveRefresh now (setAuthHeader st) = false)
    (hrt : truthy st.refresh_token = true)
    (h0 : transport 0 = AttemptResult.resp 401 ra b) :
    ((stellarRequest now pNet (some (newTok, expIn)) transport st).2.2.refreshes = 1) ∧
    (2 ≤ (stellarRequest now pNet (some (newTok, expIn)) transport
        st).2.2.headersUsed.length) ∧
    (∀ (transport2 : Nat → AttemptResult) (st2 : ClientState),
      reactiveTrigger st2 (transport2 0) = false →
      (requestLoopAux max_retries now (some (newTok, expIn)) transport2 max_retries 0
          st2).2.2.refreshes = 0) := by
  have hrt1 : truthy (setAuthHeader st).refresh_token = true := by
    rw [setAuthHeader_refresh_token]
    exact hrt
  have hstep : requestLoopAux max_retries now (some (newTok, expIn)) transport
      max_retries 0 (setAuthHeader st) =
      ((requestLoopAux max_retries now (some (newTok, expIn)) transport 2 1
          (refreshedState now newTok expIn (setAuthHeader st))).1,
       (requestLoopAux max_retries now (some (newTok, expIn)) transport 2 1
          (refreshedState now newTok expIn (setAuthHeader st))).2.1,
       ⟨(requestLoopAux max_retries now (some (newTok, expIn)) transport 2 1
          (refreshedState now newTok expIn (setAuthHeader st))).2.2.sleeps,
        (requestLoopAux max_retries now (some (newTok, expIn)) transport 2 1
          (refreshedState now newTok expIn (setAuthHeader st))).2.2.refreshes + 1,
        (setAuthHeader st).authHeader ::
          (requestLoopAux max_retries now (some (newTok, expIn)) transport 2 1
            (refreshedState now newTok expIn (setAuthHeader st))).2.2.headersUsed⟩) :=
    requestLoop_trigger_step max_retries now newTok expIn transport (setAuthHeader st)
      2 ra b hrt1 h0
  simp only [stellarRequest]
  rw [if_neg (by simp [hp] : ¬ (needsProactiveRefresh now (setAuthHeader st) = true))]
  rw [hstep]
  refine ⟨?_, ?_, ?_⟩
  · simp [(requestLoopAux_tail max_retries now (some (newTok, expIn)) transport 2 1
      (refreshedState now newTok expIn (setAuthHeader st)) (by omega)).2]
  · have hsends : ∃ rest,
        (requestLoopAux max_retries now (some (newTok, expIn)) transport 2 1
          (refreshedState now newTok expIn (setAuthHeader st))).2.2.headersUsed
        = (refreshedState now newTok expIn (setAuthHeader st)).authHeader :: rest :=
      requestLoop_sends max_retries now (some (newTok, expIn)) transport 1 1
        (refreshedState now newTok expIn (setAuthHeader st))
    obtain ⟨rest, hcons⟩ := hsends
    simp [hcons]
  · intro transport2 st2 hno
    exact requestLoop_no_trigger max_retries now (some (newTok, expIn)) transport2 st2 2 hno

/-- C8 witness transport: a 401 on the first attempt, then success. -/
def c8Transport : Nat → AttemptResult := fun i =>
  if i = 0 then AttemptResult.resp 401 none "expired token"
  else AttemptResult.resp 200 none "profile"

/-- C8 witness state: both tokens stored, no expiry set. -/
def c8State : ClientState := ⟨some "atok", some "rtok", none, none⟩

/-- C8, witness: with the 401-then-200 transport, a single refresh is
issued and two sends are performed. -/
theorem c8_single_refresh_witness :
    ((stellarRequest 0 none (some ("freshTok", some 60)) c8Transport c8State).2.2.refreshes
      = 1) ∧
    (2 ≤ (stellarRequest 0 none (some ("freshTok", some 60)) c8Transport
        c8State).2.2.headersUsed.length) :=
  ⟨(c8_single_refresh 0 none "freshTok" (some 60) c8Transport c8State none
      "expired token" (by decide) (by decide) rfl).1,
   (c8_single_refresh 0 none "freshTok" (some 60) c8Transport c8State none
      "expired token" (by decide) (by decide) rfl).2.1⟩

/-- C9: `logout` and `delete_account` clear the local token state in a
`finally` block, so whatever the remote call's outcome — decoded body,
raised error, or even the fall-off-`None` path — `isAuthenticated` is
false on the resulting state. -/
theorem c9_logout_clears_tokens (now : Int)
    (pNet rNet : Option (String × Option Nat)) (transport : Nat → AttemptResult)
    (st : ClientState) :
    (isAuthenticated (logout now pNet rNet transport st).1 = false) ∧
    (isAuthenticated (delete_account now pNet rNet transport st).1 = false) :=
  ⟨rfl, rfl⟩

/-- C10: the `Authorization` header is written once at `_request` entry
from the access token held at that moment; a 401 on attempt 0 triggers a
reactive refresh that stores a new access token but leaves the session
header holding `Bearer <old token>`, so both the first and the retried
attempt are sent with the pre-refresh header, while the stored token is
already the new one. -/
theorem c10_stale_auth_header (now : Int) (oldTok rt newTok : String)
    (expIn : Option Nat) (transport : Nat → AttemptResult) (ra : Option Nat)
    (b : String) (ho : oldTok ≠ "") (hr : rt ≠ "")
    (h0 : transport 0 = AttemptResult.resp 401 ra b) :
    ((stellarRequest now none (some (newTok, expIn)) transport
        ⟨some oldTok, some rt, none, none⟩).2.2.headersUsed.get? 0
      = some (some ("Bearer " ++ oldTok))) ∧
    ((stellarRequest now none (some (newTok, expIn)) transport
        ⟨some oldTok, some rt, none, none⟩).2.2.headersUsed.get? 1
      = some (some ("Bearer " ++ oldTok))) ∧
    ((stellarRequest now none (some (newTok, expIn)) transport
        ⟨some oldTok, some rt, none, none⟩).1.access_token = some newTok) := by
  have hS1 : setAuthHeader ⟨some oldTok, some rt, none, none⟩ =
      ⟨some oldTok, some rt, none, some ("Bearer " ++ oldTok)⟩ := by
    simp [setAuthHeader, ho]
  have hp : needsProactiveRefresh now
      (setAuthHeader ⟨some oldTok, some rt, none, none⟩) = false := by
    rw [hS1]
    rfl
  have hrt1 : truthy (setAuthHeader ⟨some oldTok, some rt, none, none⟩).refresh_token
      = true := by
    rw [setAuthHeader_refresh_token]
    simp [truthy, hr]
  have hST2 : refreshedState now newTok expIn
      (⟨some oldTok, some rt, none, some ("Bearer " ++ oldTok)⟩ : ClientState) =
      ⟨some newTok, some rt, some (now + (expIn.getD 3600 : Int)),
        some ("Bearer " ++ oldTok)⟩ := by
    simp [refreshedState, setAuthHeader, ho]
  have hstep : requestLoopAux max_retries now (some (newTok, expIn)) transport
      max_retries 0 (setAuthHeader ⟨some oldTok, some rt, none, none⟩) =
      ((requestLoopAux max_retries now (some (newTok, expIn)) transport 2 1
          (refreshedState now newTok expIn
            (setAuthHeader ⟨some oldTok, some rt, none, none⟩))).1,
       (requestLoopAux max_retries now (some (newTok, expIn)) transport 2 1
          (refreshedState now newTok expIn
            (setAuthHeader ⟨some oldTok, some rt, none, none⟩))).2.1,
       ⟨(requestLoopAux max_retries now (some (newTok, expIn)) transport 2 1
          (refreshedState now newTok expIn
            (setAuthHeader ⟨some oldTok, some rt, none, none⟩))).2.2.sleeps,
        (requestLoopAux max_retries now (some (newTok, expIn)) transport 2 1
          (refreshedState now newTok expIn
            (setAuthHeader ⟨some oldTok, some rt, none, none⟩))).2.2.refreshes + 1,
        (setAuthHeader ⟨some oldTok, some rt, none, none⟩).authHeader ::
          (requestLoopAux max_retries now (some (newTok, expIn)) transport 2 1
            (refreshedState now newTok expIn
              (setAuthHeader ⟨some oldTok, some rt, none, none⟩))).2.2.headersUsed⟩) :=
    requestLoop_trigger_step max_retries now newTok expIn transport
      (setAuthHeader ⟨some oldTok, some rt, none, none⟩) 2 ra b hrt1 h0
  rw [hS1, hST2] at hstep
  have hsends : ∃ rest,
      (requestLoopAux max_retries now (some (newTok, expIn)) transport 2 1
        (⟨some newTok, some rt, some (now + (expIn.getD 3600 : Int)),
          some ("Bearer " ++ oldTok)⟩ : ClientState)).2.2.headersUsed
      = (⟨some newTok, some rt, some (now + (expIn.getD 3600 : Int)),
          some ("Bearer " ++ oldTok)⟩ : ClientState).authHeader :: rest :=
    requestLoop_sends max_retries now (some (newTok, expIn)) transport 1 1
      (⟨some newTok, some rt, some (now + (expIn.getD 3600 : Int)),
        some ("Bearer " ++ oldTok)⟩ : ClientState)
  obtain ⟨rest, hcons⟩ := hsends
  have htail := (requestLoopAux_tail max_retries now (some (newTok, expIn)) transport 2 1
    (⟨some newTok, some rt, some (now + (expIn.getD 3600 : Int)),
      some ("Bearer " ++ oldTok)⟩ : ClientState) (by omega)).1
  simp only [stellarRequest]
  rw [if_neg (by simp [hp] :
    ¬ (needsProactiveRefresh now (setAuthHeader ⟨some oldTok, some rt, none, none⟩) = true))]
  rw [hS1, hstep]
  refine ⟨?_, ?_, ?_⟩
  · simp
  · simp [hcons]
  · simp [htail]

/-- C10 witness transport: a 401 on the first attempt, then success. -/
def c10Transport : Nat → AttemptResult := fun i =>
  if i = 0 then AttemptResult.resp 401 none "expired" else AttemptResult.resp 200 none "ok"

/-- C10, witness: after the reactive refresh stores `newT`, both sends
carry `Bearer oldT`. -/
theorem c10_stale_auth_header_witness :
    ((stellarRequest 0 none (some ("newT", none)) c10Transport
        ⟨some "oldT", some "r", none, none⟩).2.2.headersUsed.get? 0
      = some (some ("Bearer " ++ "oldT"))) ∧
    ((stellarRequest 0 none (some ("newT", none)) c10Transport
        ⟨some "oldT", some "r", none, none⟩).2.2.headersUsed.get? 1
      = some (some ("Bearer " ++ "oldT"))) ∧
    ((stellarRequest 0 none (some ("newT", none)) c10Transport
        ⟨some "oldT", some "r", none, none⟩).1.access_token = some "newT") :=
  c10_stale_auth_header 0 "oldT" "r" "newT" none c10Transport none "expired"
    (by decide) (by decide) rfl

end StellarFlow
